import Mathlib

/-!
# Verification of `internal/ansible/controller/controller.go`

A shallow embedding of `Add`, the function that wires an Ansible operator
controller into a controller-runtime manager.

`Add` is almost entirely glue between external collaborators: the type scheme
of `k8s.io/apimachinery`, the controller constructor and the watch installer of
`sigs.k8s.io/controller-runtime`, and the predicate constructor of
`internal/ansible/predicate`.  Their behaviour is taken as a parameter
(`SchemeOps`, `Deps`); the mutable objects they act on are passed as explicit
state (`Manager`), and the calls with an effect beyond the scheme (logging,
controller creation, watch installation, `os.Exit`) are recorded in a trace.
Where a property is about what a collaborator itself does (what the scheme
resolves, what a predicate admits), the collaborator is modelled from the
specification, and marked so.
-/

set_option autoImplicit false

namespace AnsibleController

/-! ## Data model -/

/-- The Go type `schema.GroupVersionKind`. -/
structure GroupVersionKind where
  Group : String
  Version : String
  Kind : String
deriving DecidableEq, Repr

/-- The Go type `schema.GroupVersion`. -/
structure GroupVersion where
  Group : String
  Version : String
deriving DecidableEq, Repr

/-- The Go type `events.LogLevel` (an `int`). -/
abbrev LogLevel := Int

/-- Values of the interface `events.EventHandler`: either the logging handler of
`internal/ansible/events`, or some other implementation, told apart by an identity. -/
inductive EventHandler where
  | loggingEventHandler (level : LogLevel)
  | custom (ident : Nat)
deriving DecidableEq, Repr

/-- Modelled from the spec: `events.NewLoggingEventHandler` (package
`internal/ansible/events` is not part of the sources at hand) builds the built-in
logging sink from the configured log-verbosity level. -/
def NewLoggingEventHandler (l : LogLevel) : EventHandler :=
  EventHandler.loggingEventHandler l

/-- A value of the interface `runner.Runner`, passed through unmodified. -/
structure Runner where
  ident : Nat
deriving DecidableEq, Repr

/-- A value of the interface `client.Client`, as handed out by the manager. -/
structure Client where
  ident : Nat
deriving DecidableEq, Repr

/-- A value of the interface `client.Reader`, as handed out by the manager. -/
structure APIReader where
  ident : Nat
deriving DecidableEq, Repr

/-- The Go type `metav1.LabelSelectorRequirement`. -/
structure LabelSelectorRequirement where
  Key : String
  Operator : String
  Values : List String
deriving DecidableEq, Repr

/-- The Go type `metav1.LabelSelector`. -/
structure LabelSelector where
  MatchLabels : List (String × String)
  MatchExpressions : List LabelSelectorRequirement
deriving DecidableEq, Repr

/-- The struct `Options` (controller.go, lines 43-55).  A Go slice is either `nil`
(`none`) or a sequence of elements (`some`). -/
structure Options where
  EventHandlers : Option (List EventHandler)
  LoggingLevel : LogLevel
  Runner : Runner
  GVK : GroupVersionKind
  ReconcilePeriod : Int
  ManageStatus : Bool
  AnsibleDebugLogs : Bool
  WatchDependentResources : Bool
  WatchClusterScopedResources : Bool
  MaxConcurrentReconciles : Int
  Selector : LabelSelector
deriving DecidableEq, Repr

/-- The fields of `AnsibleOperatorReconciler` that `Add` fills in
(controller.go, lines 66-75). -/
structure AnsibleOperatorReconciler where
  Client : Client
  GVK : GroupVersionKind
  Runner : Runner
  EventHandlers : List EventHandler
  ReconcilePeriod : Int
  ManageStatus : Bool
  AnsibleDebugLogs : Bool
  APIReader : APIReader
deriving DecidableEq, Repr

/-- The Go type `controller.Options`, with the two fields `Add` sets. -/
structure ControllerOptions where
  Reconciler : AnsibleOperatorReconciler
  MaxConcurrentReconciles : Int
deriving DecidableEq, Repr

/-- Values of the Go interface `error` that `Add` can tell apart: the
not-registered error of `k8s.io/apimachinery/pkg/runtime`, and every other error. -/
inductive Error where
  | notRegisteredErr (gvk : GroupVersionKind)
  | other (msg : String)
deriving DecidableEq, Repr

/-- The Go function `runtime.IsNotRegisteredError`: `false` on a nil error, and
otherwise whether the error is the not-registered error. -/
def IsNotRegisteredError : Option Error → Bool
  | none => false
  | some (Error.notRegisteredErr _) => true
  | some (Error.other _) => false

/-- The Go type a scheme maps a kind to: `unstructured.Unstructured`, or a typed
struct known by name. -/
inductive RuntimeType where
  | Unstructured
  | Typed (name : String)
deriving DecidableEq, Repr

/-- An `unstructured.Unstructured` object, of which `Add` only sets the kind. -/
structure Unstructured where
  gvk : GroupVersionKind
deriving DecidableEq, Repr

/-- The Go method `(*Unstructured).SetGroupVersionKind`. -/
def Unstructured.SetGroupVersionKind (_u : Unstructured) (gvk : GroupVersionKind) :
    Unstructured :=
  { gvk := gvk }

/-- The Go type `source.Kind`. -/
inductive Source where
  | Kind (type : Unstructured)
deriving DecidableEq, Repr

/-- The event handler `Add` attaches to the watch. -/
inductive Handler where
  | InstrumentedEnqueueRequestForObject
deriving DecidableEq, Repr

/-- A set of labels of a resource. -/
abbrev LabelSet := List (String × String)

/-- The predicates `Add` builds: the two generation predicates, their disjunction
`ctrlpredicate.Or`, and the resource filter holding its compiled selector. -/
inductive Predicate where
  | GenerationChangedPredicate
  | NoGenerationPredicate
  | Or (p q : Predicate)
  | ResourceFilterPredicate (Selector : LabelSet → Bool)

/-! ## External collaborators -/

/-- The three operations of `runtime.Scheme` and `metav1` that `Add` uses, over a
scheme state `S`.  `New` answers a query; the two others mutate the scheme and
return nothing in Go. -/
structure SchemeOps (S : Type) where
  New : S → GroupVersionKind → Except Error RuntimeType
  AddKnownTypeWithName : S → GroupVersionKind → RuntimeType → S
  AddToGroupVersion : S → GroupVersion → S

/-- The manager: its shared scheme, the client and API reader it hands out, and
the state `K` of the controller runtime (the controllers it holds and their
watches). -/
structure Manager (S K : Type) where
  scheme : S
  client : Client
  apiReader : APIReader
  state : K

/-- The Go method `Manager.GetClient`. -/
def Manager.GetClient {S K : Type} (mgr : Manager S K) : Client := mgr.client

/-- The Go method `Manager.GetAPIReader`. -/
def Manager.GetAPIReader {S K : Type} (mgr : Manager S K) : APIReader := mgr.apiReader

/-- The Go method `Manager.GetScheme`. -/
def Manager.GetScheme {S K : Type} (mgr : Manager S K) : S := mgr.scheme

/-- Everything `Add` calls outside controller.go.  `controllerNew` is
`controller.New`: it fails, or yields a controller handle `C` and the new runtime
state.  `watch` is the controller's `Watch`: it fails or yields the new runtime
state.  Neither touches the scheme.  `LabelSelectorAsSelector` compiles a label
selector into its matching function, or fails on an invalid selector.
`unicodeToLower` is the lower-case mapping of `unicode.ToLower` for the
characters above ASCII. -/
structure Deps (S K C : Type) where
  scheme : SchemeOps S
  controllerNew : String → Manager S K → ControllerOptions → Except Error (C × K)
  watch : K → C → Source → Handler → List Predicate → Except Error K
  LabelSelectorAsSelector : LabelSelector → Except Error (LabelSet → Bool)
  unicodeToLower : Char → Char

/-- The calls of `Add` with an effect outside the scheme, in program order. -/
inductive Call (C : Type) where
  | logInfo (msg : String) (keysAndValues : List (String × String))
  | logError (err : Error) (msg : String)
  | controllerNew (name : String) (options : ControllerOptions)
  | watch (c : C) (src : Source) (h : Handler) (predicates : List Predicate)
  | osExit (code : Int)

/-- What a run of `Add` leaves behind: the manager, the trace of calls, and the
returned controller handle (`none` when the process exited).  A call of
`controller.New` or `Watch` that fails is followed by the exit at once; the runtime
state is then reported as it was before that call. -/
structure Outcome (S K C : Type) where
  mgr : Manager S K
  trace : List (Call C)
  ret : Option C

/-! ## The program -/

/-- The Go function `unicode.ToLower` on one rune: below `0x80` the letters
`A`..`Z` move by `a - A` and nothing else changes; above, the Unicode tables
decide. -/
def toLowerRune (unicodeToLower : Char → Char) (r : Char) : Char :=
  if r.toNat < 128 then
    if 65 ≤ r.toNat ∧ r.toNat ≤ 90 then Char.ofNat (r.toNat + 32) else r
  else unicodeToLower r

/-- The Go function `strings.ToLower`. -/
def ToLower (unicodeToLower : Char → Char) (s : String) : String :=
  String.mk (s.data.map (toLowerRune unicodeToLower))

/-- The controller name (controller.go, line 92):
`fmt.Sprintf("%v-controller", strings.ToLower(options.GVK.Kind))`. -/
def controllerName (unicodeToLower : Char → Char) (kind : String) : String :=
  ToLower unicodeToLower kind ++ "-controller"

/-- The event handlers (controller.go, lines 61-64): a nil slice becomes the empty
slice, then the logging handler is appended. -/
def composeEventHandlers (options : Options) : List EventHandler :=
  let handlers : List EventHandler :=
    match options.EventHandlers with
    | none => []
    | some hs => hs
  handlers ++ [NewLoggingEventHandler options.LoggingLevel]

/-- The reconciler (controller.go, lines 66-75). -/
def newReconciler {S K : Type} (mgr : Manager S K) (options : Options) :
    AnsibleOperatorReconciler :=
  { Client := mgr.GetClient
    GVK := options.GVK
    Runner := options.Runner
    EventHandlers := composeEventHandlers options
    ReconcilePeriod := options.ReconcilePeriod
    ManageStatus := options.ManageStatus
    AnsibleDebugLogs := options.AnsibleDebugLogs
    APIReader := mgr.GetAPIReader }

/-- The error value of a Go call returning `(value, error)`. -/
def errOf {α : Type} : Except Error α → Option Error
  | Except.ok _ => none
  | Except.error e => some e

/-- The registration step (controller.go, lines 77-89).  `Except.error err` stands
for the branch that logs `err` and calls `os.Exit(1)`; `Except.ok s` is the scheme
with which `Add` goes on. -/
def registerGVK {S : Type} (ops : SchemeOps S) (scheme : S) (gvk : GroupVersionKind) :
    Except Error S :=
  let err := errOf (ops.New scheme gvk)
  if IsNotRegisteredError err then
    let scheme1 := ops.AddKnownTypeWithName scheme gvk RuntimeType.Unstructured
    let scheme2 := ops.AddToGroupVersion scheme1
      { Group := gvk.Group, Version := gvk.Version }
    Except.ok scheme2
  else
    match err with
    | some e => Except.error e
    | none => Except.ok scheme

/-- Modelled from the spec: `predicate.NewResourceFilterPredicate` (package
`internal/ansible/predicate` is not part of the sources at hand) compiles the
configured label selector into a label-selector predicate; construction fails when
the selector is invalid. -/
def NewResourceFilterPredicate (asSelector : LabelSelector → Except Error (LabelSet → Bool))
    (s : LabelSelector) : Except Error Predicate :=
  match asSelector s with
  | Except.error e => Except.error e
  | Except.ok m => Except.ok (Predicate.ResourceFilterPredicate m)

/-- The predicate chain (controller.go, lines 102-111).  `Except.error err` stands
for the branch that logs `err` and calls `os.Exit(1)`. -/
def buildPredicates (asSelector : LabelSelector → Except Error (LabelSet → Bool))
    (selector : LabelSelector) : Except Error (List Predicate) :=
  let predicates : List Predicate :=
    [Predicate.Or Predicate.GenerationChangedPredicate Predicate.NoGenerationPredicate]
  match NewResourceFilterPredicate asSelector selector with
  | Except.error e => Except.error e
  | Except.ok filterPredicate => Except.ok (predicates ++ [filterPredicate])

/-- The pair `log.Error(err, msg); os.Exit(1)` that ends every failing branch. -/
def fatal {S K C : Type} (mgr : Manager S K) (trace : List (Call C)) (err : Error)
    (msg : String) : Outcome S K C :=
  { mgr := mgr
    trace := trace ++ [Call.logError err msg, Call.osExit 1]
    ret := none }

/-- The Go function `Add` (controller.go, lines 58-122). -/
def Add {S K C : Type} (d : Deps S K C) (mgr : Manager S K) (options : Options) :
    Outcome S K C :=
  let t0 : List (Call C) :=
    [Call.logInfo "Watching resource"
      [("Options.Group", options.GVK.Group), ("Options.Version", options.GVK.Version),
       ("Options.Kind", options.GVK.Kind)]]
  let aor := newReconciler mgr options
  match registerGVK d.scheme mgr.GetScheme options.GVK with
  | Except.error err => fatal mgr t0 err ""
  | Except.ok scheme =>
    let mgr1 : Manager S K := { mgr with scheme := scheme }
    let name := controllerName d.unicodeToLower options.GVK.Kind
    let copts : ControllerOptions :=
      { Reconciler := aor, MaxConcurrentReconciles := options.MaxConcurrentReconciles }
    let t1 := t0 ++ [Call.controllerNew name copts]
    match d.controllerNew name mgr1 copts with
    | Except.error err => fatal mgr1 t1 err ""
    | Except.ok (c, k) =>
      let mgr2 : Manager S K := { mgr1 with state := k }
      match buildPredicates d.LabelSelectorAsSelector options.Selector with
      | Except.error err => fatal mgr2 t1 err "Error creating resource filter predicate"
      | Except.ok predicates =>
        let u := Unstructured.SetGroupVersionKind { gvk := ⟨"", "", ""⟩ } options.GVK
        let t2 := t1 ++
          [Call.watch c (Source.Kind u) Handler.InstrumentedEnqueueRequestForObject predicates]
        match d.watch mgr2.state c (Source.Kind u)
            Handler.InstrumentedEnqueueRequestForObject predicates with
        | Except.error err => fatal mgr2 t2 err ""
        | Except.ok k2 =>
          { mgr := { mgr2 with state := k2 }, trace := t2, ret := some c }

/-- The `controller.New` calls of a trace, in order. -/
def controllerNewCalls {C : Type} : List (Call C) → List (String × ControllerOptions)
  | [] => []
  | Call.controllerNew name options :: rest => (name, options) :: controllerNewCalls rest
  | _ :: rest => controllerNewCalls rest

/-- The `Watch` calls of a trace, in order: the controller, the source, the handler
and the predicate chain of each. -/
def watchCalls {C : Type} : List (Call C) → List (C × Source × Handler × List Predicate)
  | [] => []
  | Call.watch c src h predicates :: rest => (c, src, h, predicates) :: watchCalls rest
  | _ :: rest => watchCalls rest

/-! ## The type scheme, from the specification -/

/-- Modelled from the spec: the shared type scheme (`runtime.Scheme` of
`k8s.io/apimachinery` is not part of the sources at hand).  It holds the
representation registered under each Group/Version/Kind, and the group-versions
whose metadata was registered. -/
structure Scheme where
  gvkToType : List (GroupVersionKind × RuntimeType)
  groupVersions : List GroupVersion
deriving DecidableEq, Repr

/-- Modelled from the spec: resolving a kind in the scheme (`Scheme.New` is missing
from the sources) yields the representation registered under that exact
Group/Version/Kind, and fails with the not-registered condition when there is
none. -/
def Scheme.New (s : Scheme) (gvk : GroupVersionKind) : Except Error RuntimeType :=
  match s.gvkToType.lookup gvk with
  | some t => Except.ok t
  | none => Except.error (Error.notRegisteredErr gvk)

/-- Modelled from the spec: `Scheme.AddKnownTypeWithName` (missing from the sources)
registers a representation under that exact Group/Version/Kind. -/
def Scheme.AddKnownTypeWithName (s : Scheme) (gvk : GroupVersionKind) (t : RuntimeType) :
    Scheme :=
  { s with gvkToType := (gvk, t) :: s.gvkToType }

/-- Modelled from the spec: `metav1.AddToGroupVersion` (missing from the sources)
registers the group-version metadata, so that the scheme can enumerate it. -/
def Scheme.AddToGroupVersion (s : Scheme) (gv : GroupVersion) : Scheme :=
  { s with groupVersions := gv :: s.groupVersions }

/-- Modelled from the spec: the scheme operations (missing from the sources) that
`Add` runs on the scheme of the specification. -/
def specSchemeOps : SchemeOps Scheme :=
  { New := Scheme.New
    AddKnownTypeWithName := Scheme.AddKnownTypeWithName
    AddToGroupVersion := Scheme.AddToGroupVersion }

/-! ## Events and admission, from the specification -/

/-- Modelled from the spec: a resource as the predicates see it (the object types of
`k8s.io/apimachinery` are missing from the sources): its labels and its generation
counter, `none` for a kind that exposes no generation counter. -/
structure Object where
  labels : LabelSet
  generation : Option Int
deriving DecidableEq, Repr

/-- Modelled from the spec: a resource-change event (the event types of
controller-runtime are missing from the sources): a creation, an update from an old
to a new version, a deletion, or a generic event. -/
inductive Event where
  | create (object : Object)
  | update (objectOld objectNew : Object)
  | delete (object : Object)
  | generic (object : Object)
deriving DecidableEq, Repr

/-- Modelled from the spec: the label set of an event (missing from the sources) is
that of its object, the new version for an update. -/
def Event.labels : Event → LabelSet
  | Event.create o => o.labels
  | Event.update _ n => n.labels
  | Event.delete o => o.labels
  | Event.generic o => o.labels

/-- Modelled from the spec: what each predicate admits (the predicate
implementations of controller-runtime, operator-lib and
`internal/ansible/predicate` are missing from the sources).  The
generation-changed predicate admits an update whose generation counter changed;
the no-generation predicate admits an update of a kind that exposes no generation
counter; both let every other event through.  `Or` admits what either of its two
predicates admits, and the resource filter admits the events whose label set
matches the selector. -/
def Predicate.admits : Predicate → Event → Bool
  | Predicate.GenerationChangedPredicate, Event.update o n =>
    decide (o.generation ≠ n.generation)
  | Predicate.GenerationChangedPredicate, _ => true
  | Predicate.NoGenerationPredicate, Event.update o n =>
    o.generation.isNone && n.generation.isNone
  | Predicate.NoGenerationPredicate, _ => true
  | Predicate.Or p q, e => p.admits e || q.admits e
  | Predicate.ResourceFilterPredicate m, e => m e.labels

/-- Modelled from the spec: the admission rule of a predicate chain (the watch
machinery of controller-runtime is missing from the sources): an event passes
only if every predicate admits it, in chain order, stopping at the first
rejection. -/
def chainAdmits : List Predicate → Event → Bool
  | [], _ => true
  | p :: rest, e => if p.admits e then chainAdmits rest e else false

/-! ## A concrete environment -/

/-- A selector compiler for concrete runs: a selector whose expressions all carry
one of the four operators compiles to the test that every `MatchLabels` pair is
among the labels; any other selector is invalid. -/
def exampleAsSelector (s : LabelSelector) : Except Error (LabelSet → Bool) :=
  if s.MatchExpressions.all
      (fun r => decide (r.Operator ∈ ["In", "NotIn", "Exists", "DoesNotExist"])) then
    Except.ok (fun labels => s.MatchLabels.all (fun kv => decide (kv ∈ labels)))
  else Except.error (Error.other "not a valid label selector operator")

/-- An environment for concrete runs: the scheme of the specification, a runtime
that holds the names of its controllers and refuses a second controller of the
same name, and watches that succeed on the controllers it holds. -/
def exampleDeps : Deps Scheme (List String) String :=
  { scheme := specSchemeOps
    controllerNew := fun name mgr _ =>
      if name ∈ mgr.state then Except.error (Error.other "controller name already in use")
      else Except.ok (name, name :: mgr.state)
    watch := fun k c _ _ _ =>
      if c ∈ k then Except.ok k else Except.error (Error.other "unknown controller")
    LabelSelectorAsSelector := exampleAsSelector
    unicodeToLower := id }

/-- A scheme whose every resolution fails with an error that is not the
not-registered error. -/
def brokenSchemeOps : SchemeOps Scheme :=
  { specSchemeOps with New := fun _ _ => Except.error (Error.other "scheme is corrupt") }

/-- The environment `exampleDeps` on the broken scheme. -/
def brokenDeps : Deps Scheme (List String) String :=
  { exampleDeps with scheme := brokenSchemeOps }

/-- The empty scheme. -/
def emptyScheme : Scheme := { gvkToType := [], groupVersions := [] }

/-- A manager with an empty scheme and no controller. -/
def exampleManager : Manager Scheme (List String) :=
  { scheme := emptyScheme, client := { ident := 1 }, apiReader := { ident := 2 }, state := [] }

/-- The kind `Foo` of group `cache.example.com`, version `v1`. -/
def fooGVK : GroupVersionKind := { Group := "cache.example.com", Version := "v1", Kind := "Foo" }

/-- Options for the kind `Foo`: no selector restriction, a nil handler list. -/
def fooOptions : Options :=
  { EventHandlers := none
    LoggingLevel := 1
    Runner := { ident := 7 }
    GVK := fooGVK
    ReconcilePeriod := 0
    ManageStatus := true
    AnsibleDebugLogs := false
    WatchDependentResources := true
    WatchClusterScopedResources := false
    MaxConcurrentReconciles := 4
    Selector := { MatchLabels := [], MatchExpressions := [] } }

/-- A selector with an unknown operator. -/
def badSelector : LabelSelector :=
  { MatchLabels := [], MatchExpressions := [{ Key := "app", Operator := "Near", Values := [] }] }

/-- A selector asking for the label `app=web`. -/
def webSelector : LabelSelector :=
  { MatchLabels := [("app", "web")], MatchExpressions := [] }

/-- The matching function `exampleAsSelector` compiles `webSelector` to. -/
def webMatches : LabelSet → Bool :=
  fun labels => [("app", "web")].all (fun kv => decide (kv ∈ labels))

/-! ## Shared lemmas -/

theorem registerGVK_resolved {S : Type} (ops : SchemeOps S) (s : S) (gvk : GroupVersionKind)
    (t : RuntimeType) (h : ops.New s gvk = Except.ok t) :
    registerGVK ops s gvk = Except.ok s := by
  simp [registerGVK, h, errOf, IsNotRegisteredError]

theorem registerGVK_notRegistered {S : Type} (ops : SchemeOps S) (s : S)
    (gvk : GroupVersionKind) (h : IsNotRegisteredError (errOf (ops.New s gvk)) = true) :
    registerGVK ops s gvk =
      Except.ok (ops.AddToGroupVersion
        (ops.AddKnownTypeWithName s gvk RuntimeType.Unstructured)
        { Group := gvk.Group, Version := gvk.Version }) := by
  simp [registerGVK, h]

theorem registerGVK_fatal {S : Type} (ops : SchemeOps S) (s : S) (gvk : GroupVersionKind)
    (e : Error) (h : ops.New s gvk = Except.error e)
    (hn : IsNotRegisteredError (some e) = false) :
    registerGVK ops s gvk = Except.error e := by
  simp [registerGVK, h, errOf, hn]

theorem registerGVK_error_inv {S : Type} (ops : SchemeOps S) (s : S) (gvk : GroupVersionKind)
    (e : Error) (h : registerGVK ops s gvk = Except.error e) :
    ops.New s gvk = Except.error e ∧ IsNotRegisteredError (some e) = false := by
  unfold registerGVK at h
  cases hN : ops.New s gvk with
  | ok t => simp [hN, errOf, IsNotRegisteredError] at h
  | error e2 =>
    cases hb : IsNotRegisteredError (some e2) with
    | true => simp [hN, errOf, hb] at h
    | false =>
      simp [hN, errOf, hb] at h
      subst h
      exact ⟨rfl, hb⟩

theorem controllerNewCalls_append {C : Type} (xs ys : List (Call C)) :
    controllerNewCalls (xs ++ ys) = controllerNewCalls xs ++ controllerNewCalls ys := by
  induction xs with
  | nil => rfl
  | cons x xs ih => cases x <;> simp [controllerNewCalls, ih]

theorem watchCalls_append {C : Type} (xs ys : List (Call C)) :
    watchCalls (xs ++ ys) = watchCalls xs ++ watchCalls ys := by
  induction xs with
  | nil => rfl
  | cons x xs ih => cases x <;> simp [watchCalls, ih]

/-- The `controller.New` calls of a run of `Add`: none when the registration step
exits, and otherwise exactly one, with the derived name, the reconciler and the
concurrency limit. -/
theorem Add_controllerNewCalls {S K C : Type} (d : Deps S K C) (mgr : Manager S K)
    (options : Options) :
    controllerNewCalls (Add d mgr options).trace =
      match registerGVK d.scheme mgr.scheme options.GVK with
      | Except.error _ => []
      | Except.ok _ =>
        [(controllerName d.unicodeToLower options.GVK.Kind,
          { Reconciler := newReconciler mgr options
            MaxConcurrentReconciles := options.MaxConcurrentReconciles })] := by
  unfold Add
  simp only [Manager.GetScheme]
  cases registerGVK d.scheme mgr.scheme options.GVK with
  | error e => simp [fatal, controllerNewCalls]
  | ok s1 =>
    simp only
    split
    · simp [fatal, controllerNewCalls]
    · split
      · simp [fatal, controllerNewCalls]
      · split <;> simp [fatal, controllerNewCalls]

/-- The `Watch` calls of a run of `Add`: exactly one, on the created controller,
with the kind source, the instrumented handler and the predicate chain, when the
three steps before it succeed, and none otherwise. -/
theorem Add_watchCalls {S K C : Type} (d : Deps S K C) (mgr : Manager S K)
    (options : Options) :
    watchCalls (Add d mgr options).trace =
      match registerGVK d.scheme mgr.scheme options.GVK with
      | Except.error _ => []
      | Except.ok s1 =>
        match d.controllerNew (controllerName d.unicodeToLower options.GVK.Kind)
            { mgr with scheme := s1 }
            { Reconciler := newReconciler mgr options
              MaxConcurrentReconciles := options.MaxConcurrentReconciles } with
        | Except.error _ => []
        | Except.ok (c, _) =>
          match buildPredicates d.LabelSelectorAsSelector options.Selector with
          | Except.error _ => []
          | Except.ok predicates =>
            [(c, Source.Kind { gvk := options.GVK },
              Handler.InstrumentedEnqueueRequestForObject, predicates)] := by
  unfold Add
  simp only [Manager.GetScheme]
  cases registerGVK d.scheme mgr.scheme options.GVK with
  | error e => simp [fatal, watchCalls]
  | ok s1 =>
    simp only
    cases d.controllerNew (controllerName d.unicodeToLower options.GVK.Kind)
        { mgr with scheme := s1 }
        { Reconciler := newReconciler mgr options
          MaxConcurrentReconciles := options.MaxConcurrentReconciles } with
    | error e => simp [fatal, watchCalls]
    | ok ck =>
      obtain ⟨c, k⟩ := ck
      simp only
      cases buildPredicates d.LabelSelectorAsSelector options.Selector with
      | error e => simp [fatal, watchCalls]
      | ok ps =>
        simp only
        split <;> simp [fatal, watchCalls, Unstructured.SetGroupVersionKind]

/-- The scheme a run of `Add` leaves behind: the one the registration step built,
or the initial one when that step exits. -/
theorem Add_scheme {S K C : Type} (d : Deps S K C) (mgr : Manager S K)
    (options : Options) :
    (Add d mgr options).mgr.scheme =
      match registerGVK d.scheme mgr.scheme options.GVK with
      | Except.error _ => mgr.scheme
      | Except.ok s1 => s1 := by
  unfold Add
  simp only [Manager.GetScheme]
  cases registerGVK d.scheme mgr.scheme options.GVK with
  | error e => simp [fatal]
  | ok s1 =>
    simp only
    split
    · simp [fatal]
    · split
      · simp [fatal]
      · split <;> simp [fatal]

/-! ## Event-handler composition -/

/-- C1: for every caller-supplied handler list (nil, empty or not) and every logging
level, the handler list `Add` stores in the reconciler is the caller's list followed
by exactly one logging handler built from that level: one element longer, the
caller's handlers first and in order, the logging handler last, and a single element
for a nil or empty list.  It is the list of the reconciler `Add` hands to
`controller.New`. -/
theorem Add_eventHandlers {S K C : Type} (d : Deps S K C) (mgr : Manager S K)
    (options : Options) :
    (newReconciler mgr options).EventHandlers =
        options.EventHandlers.getD [] ++ [NewLoggingEventHandler options.LoggingLevel]
    ∧ (newReconciler mgr options).EventHandlers.length =
        (options.EventHandlers.getD []).length + 1
    ∧ (newReconciler mgr options).EventHandlers.take (options.EventHandlers.getD []).length =
        options.EventHandlers.getD []
    ∧ (∀ i : Nat, i < (options.EventHandlers.getD []).length →
        (newReconciler mgr options).EventHandlers[i]? = (options.EventHandlers.getD [])[i]?)
    ∧ (newReconciler mgr options).EventHandlers.getLast? =
        some (NewLoggingEventHandler options.LoggingLevel)
    ∧ (options.EventHandlers = none ∨ options.EventHandlers = some [] →
        (newReconciler mgr options).EventHandlers =
          [NewLoggingEventHandler options.LoggingLevel])
    ∧ (∀ p ∈ controllerNewCalls (Add d mgr options).trace,
        p.2.Reconciler.EventHandlers =
          options.EventHandlers.getD [] ++ [NewLoggingEventHandler options.LoggingLevel]) := by
  have h0 : (newReconciler mgr options).EventHandlers =
      options.EventHandlers.getD [] ++ [NewLoggingEventHandler options.LoggingLevel] := by
    simp only [newReconciler, composeEventHandlers]
    cases options.EventHandlers <;> rfl
  refine ⟨h0, ?_, ?_, ?_, ?_, ?_, ?_⟩
  · rw [h0]; simp
  · rw [h0]; simp
  · intro i hi
    rw [h0, List.getElem?_append_left hi]
  · rw [h0]; simp
  · intro h
    rw [h0]
    rcases h with h | h <;> simp [h]
  · intro p hp
    rw [Add_controllerNewCalls] at hp
    cases hr : registerGVK d.scheme mgr.scheme options.GVK with
    | error e => simp [hr] at hp
    | ok s1 =>
      simp [hr] at hp
      subst hp
      exact h0

/-- A run on the kind `Foo` with a nil handler list reaches `controller.New`, and the
reconciler it passes holds the logging handler alone. -/
theorem Add_eventHandlers_witness :
    (controllerNewCalls (Add exampleDeps exampleManager fooOptions).trace).map
        (fun p => p.2.Reconciler.EventHandlers) = [[NewLoggingEventHandler 1]]
    ∧ ∀ p ∈ controllerNewCalls (Add exampleDeps exampleManager fooOptions).trace,
        p.2.Reconciler.EventHandlers = [NewLoggingEventHandler 1] :=
  ⟨by decide, (Add_eventHandlers exampleDeps exampleManager fooOptions).2.2.2.2.2.2⟩

/-! ## The controller name -/

/-- C2: the name `Add` passes to `controller.New` is the lower-cased Kind followed by
`-controller`, and it is passed whenever the registration step does not exit; the
Kind `Foo` gives `foo-controller`; and the name depends on the Kind alone: two runs
on options with the same Kind pass the same name, whatever the managers, the
selectors and the other fields are. -/
theorem Add_controllerName {S K C : Type} (d : Deps S K C) (mgr mgr2 : Manager S K)
    (options options2 : Options) :
    (∀ p ∈ controllerNewCalls (Add d mgr options).trace,
        p.1 = ToLower d.unicodeToLower options.GVK.Kind ++ "-controller")
    ∧ ((∃ s1, registerGVK d.scheme mgr.scheme options.GVK = Except.ok s1) →
        (controllerNewCalls (Add d mgr options).trace).map Prod.fst =
          [ToLower d.unicodeToLower options.GVK.Kind ++ "-controller"])
    ∧ (options.GVK.Kind = "Foo" →
        ∀ p ∈ controllerNewCalls (Add d mgr options).trace, p.1 = "foo-controller")
    ∧ (options.GVK.Kind = options2.GVK.Kind →
        ∀ p ∈ controllerNewCalls (Add d mgr options).trace,
        ∀ q ∈ controllerNewCalls (Add d mgr2 options2).trace, p.1 = q.1) := by
  have key : ∀ (m : Manager S K) (o : Options),
      ∀ p ∈ controllerNewCalls (Add d m o).trace,
        p.1 = ToLower d.unicodeToLower o.GVK.Kind ++ "-controller" := by
    intro m o p hp
    rw [Add_controllerNewCalls] at hp
    cases hr : registerGVK d.scheme m.scheme o.GVK with
    | error e => simp [hr] at hp
    | ok s1 =>
      simp [hr] at hp
      subst hp
      rfl
  refine ⟨key mgr options, ?_, ?_, ?_⟩
  · rintro ⟨s1, hs1⟩
    rw [Add_controllerNewCalls, hs1]
    rfl
  · intro hk p hp
    rw [key mgr options p hp, hk]
    rfl
  · intro hk p hp q hq
    rw [key mgr options p hp, key mgr2 options2 q hq, hk]

/-- Two runs on the kind `Foo`, the second with another selector and on the manager
the first one left: both pass the name `foo-controller`. -/
theorem Add_controllerName_witness :
    (controllerNewCalls (Add exampleDeps exampleManager fooOptions).trace).map Prod.fst =
        ["foo-controller"]
    ∧ (controllerNewCalls (Add exampleDeps (Add exampleDeps exampleManager fooOptions).mgr
        { fooOptions with Selector := badSelector }).trace).map Prod.fst = ["foo-controller"]
    ∧ ∀ p ∈ controllerNewCalls (Add exampleDeps exampleManager fooOptions).trace,
        ∀ q ∈ controllerNewCalls (Add exampleDeps
          (Add exampleDeps exampleManager fooOptions).mgr
          { fooOptions with Selector := badSelector }).trace, p.1 = q.1 :=
  ⟨by decide, by decide,
    (Add_controllerName exampleDeps exampleManager
      (Add exampleDeps exampleManager fooOptions).mgr fooOptions
      { fooOptions with Selector := badSelector }).2.2.2 rfl⟩

/-! ## The registration step on the scheme of the specification -/

theorem Scheme.notRegistered_iff (s : Scheme) (gvk : GroupVersionKind) :
    IsNotRegisteredError (errOf (s.New gvk)) = true ↔ s.gvkToType.lookup gvk = none := by
  unfold Scheme.New
  cases s.gvkToType.lookup gvk <;> simp [errOf, IsNotRegisteredError]

theorem Scheme.New_registered (s : Scheme) (gvk : GroupVersionKind) (t : RuntimeType)
    (gv : GroupVersion) :
    ((s.AddKnownTypeWithName gvk t).AddToGroupVersion gv).New gvk = Except.ok t := by
  simp [Scheme.New, Scheme.AddKnownTypeWithName, Scheme.AddToGroupVersion, List.lookup]

theorem Scheme.New_other (s : Scheme) (gvk gvk2 : GroupVersionKind) (t : RuntimeType)
    (gv : GroupVersion) (hne : gvk2 ≠ gvk) :
    ((s.AddKnownTypeWithName gvk t).AddToGroupVersion gv).New gvk2 = s.New gvk2 := by
  have hb : (gvk2 == gvk) = false := by simpa using hne
  simp [Scheme.New, Scheme.AddKnownTypeWithName, Scheme.AddToGroupVersion, List.lookup, hb]

/-- C3: on the scheme of the specification, for every scheme and every
Group/Version/Kind it does not resolve, the registration step of `Add` goes on with
a scheme that resolves that exact Group/Version/Kind to the unstructured
representation and that holds the group-version metadata of its Group and Version;
this is the scheme a run of `Add` leaves in the manager.  On any scheme the step is
the call of `AddKnownTypeWithName` with the unstructured representation, then
`AddToGroupVersion`. -/
theorem registerGVK_registers (s : Scheme) (gvk : GroupVersionKind)
    (h : IsNotRegisteredError (errOf (s.New gvk)) = true) :
    ∃ s1 : Scheme, registerGVK specSchemeOps s gvk = Except.ok s1
      ∧ s1.New gvk = Except.ok RuntimeType.Unstructured
      ∧ ({ Group := gvk.Group, Version := gvk.Version } : GroupVersion) ∈ s1.groupVersions
      ∧ (∀ (K C : Type) (d : Deps Scheme K C) (mgr : Manager Scheme K) (options : Options),
          d.scheme = specSchemeOps → mgr.scheme = s → options.GVK = gvk →
          (Add d mgr options).mgr.scheme = s1)
      ∧ (∀ (S : Type) (ops : SchemeOps S) (s0 : S),
          IsNotRegisteredError (errOf (ops.New s0 gvk)) = true →
          registerGVK ops s0 gvk = Except.ok (ops.AddToGroupVersion
            (ops.AddKnownTypeWithName s0 gvk RuntimeType.Unstructured)
            { Group := gvk.Group, Version := gvk.Version })) := by
  have hreg := registerGVK_notRegistered specSchemeOps s gvk h
  refine ⟨_, hreg, ?_, ?_, ?_, ?_⟩
  · exact Scheme.New_registered s gvk _ _
  · simp [specSchemeOps, Scheme.AddToGroupVersion]
  · intro K C d mgr options hd hm ho
    rw [Add_scheme, hd, hm, ho, hreg]
  · intro S ops s0 h0
    exact registerGVK_notRegistered ops s0 gvk h0

/-- The empty scheme does not resolve the kind `Foo`; after the step it does. -/
theorem registerGVK_registers_witness :
    IsNotRegisteredError (errOf (emptyScheme.New fooGVK)) = true
    ∧ ∃ s1 : Scheme, registerGVK specSchemeOps emptyScheme fooGVK = Except.ok s1
      ∧ s1.New fooGVK = Except.ok RuntimeType.Unstructured
      ∧ ({ Group := "cache.example.com", Version := "v1" } : GroupVersion) ∈ s1.groupVersions :=
  ⟨by decide,
    (registerGVK_registers emptyScheme fooGVK (by decide)).imp
      (fun _ h => ⟨h.1, h.2.1, h.2.2.1⟩)⟩

/-- C4: the registration step of `Add` is idempotent.  On the scheme of the
specification, for every scheme and every Group/Version/Kind, the step succeeds and
running it again on its result leaves that result unchanged.  On any scheme, a
Group/Version/Kind that already resolves makes the step leave the scheme unchanged
without failing, and a second run after a first one that made the kind resolvable
changes nothing. -/
theorem registerGVK_idempotent (s : Scheme) (gvk : GroupVersionKind) :
    (∃ s1 : Scheme, registerGVK specSchemeOps s gvk = Except.ok s1
        ∧ registerGVK specSchemeOps s1 gvk = Except.ok s1)
    ∧ (∀ (S : Type) (ops : SchemeOps S) (s0 : S),
        (∃ t, ops.New s0 gvk = Except.ok t) → registerGVK ops s0 gvk = Except.ok s0)
    ∧ (∀ (S : Type) (ops : SchemeOps S) (s0 s1 : S),
        registerGVK ops s0 gvk = Except.ok s1 → (∃ t, ops.New s1 gvk = Except.ok t) →
        registerGVK ops s1 gvk = Except.ok s1) := by
  refine ⟨?_, ?_, ?_⟩
  · cases hl : s.gvkToType.lookup gvk with
    | some t =>
      have hN : specSchemeOps.New s gvk = Except.ok t := by
        simp [specSchemeOps, Scheme.New, hl]
      exact ⟨s, registerGVK_resolved _ s gvk t hN, registerGVK_resolved _ s gvk t hN⟩
    | none =>
      have h := (Scheme.notRegistered_iff s gvk).2 hl
      refine ⟨_, registerGVK_notRegistered specSchemeOps s gvk h, ?_⟩
      exact registerGVK_resolved specSchemeOps _ gvk RuntimeType.Unstructured
        (Scheme.New_registered s gvk _ _)
  · rintro S ops s0 ⟨t, ht⟩
    exact registerGVK_resolved ops s0 gvk t ht
  · rintro S ops s0 s1 _ ⟨t, ht⟩
    exact registerGVK_resolved ops s1 gvk t ht

/-- On the empty scheme, a second registration of the kind `Foo` changes nothing. -/
theorem registerGVK_idempotent_witness :
    ∃ s1 : Scheme, registerGVK specSchemeOps emptyScheme fooGVK = Except.ok s1
      ∧ registerGVK specSchemeOps s1 fooGVK = Except.ok s1 :=
  (registerGVK_idempotent emptyScheme fooGVK).1

/-- C5: on the scheme of the specification, for two resource identities with the
same Group and Kind and different Versions, neither of which the scheme resolves:
registering the first leaves the second unresolved (not registered), registering the
second afterwards succeeds, and the scheme then resolves both. -/
theorem registerGVK_versions_independent (s : Scheme) (g1 g2 : GroupVersionKind)
    (hG : g1.Group = g2.Group) (hK : g1.Kind = g2.Kind) (hV : g1.Version ≠ g2.Version)
    (h1 : IsNotRegisteredError (errOf (s.New g1)) = true)
    (h2 : IsNotRegisteredError (errOf (s.New g2)) = true) :
    ∃ s1 s2 : Scheme, registerGVK specSchemeOps s g1 = Except.ok s1
      ∧ s1.New g1 = Except.ok RuntimeType.Unstructured
      ∧ s1.New g2 = Except.error (Error.notRegisteredErr g2)
      ∧ IsNotRegisteredError (errOf (s1.New g2)) = true
      ∧ registerGVK specSchemeOps s1 g2 = Except.ok s2
      ∧ s2.New g1 = Except.ok RuntimeType.Unstructured
      ∧ s2.New g2 = Except.ok RuntimeType.Unstructured := by
  have _hG := hG
  have _hK := hK
  have hne : g2 ≠ g1 := fun h => hV (by rw [h])
  have hl2 : s.gvkToType.lookup g2 = none := (Scheme.notRegistered_iff s g2).1 h2
  have hs1 : ((s.AddKnownTypeWithName g1 RuntimeType.Unstructured).AddToGroupVersion
      { Group := g1.Group, Version := g1.Version }).New g2 =
      Except.error (Error.notRegisteredErr g2) := by
    rw [Scheme.New_other s g1 g2 _ _ hne]
    simp [Scheme.New, hl2]
  have hn2 : IsNotRegisteredError (errOf
      (((s.AddKnownTypeWithName g1 RuntimeType.Unstructured).AddToGroupVersion
        { Group := g1.Group, Version := g1.Version }).New g2)) = true := by
    rw [hs1]; rfl
  refine ⟨_, _, registerGVK_notRegistered specSchemeOps s g1 h1, ?_, hs1, hn2,
    registerGVK_notRegistered specSchemeOps _ g2 hn2, ?_, ?_⟩
  · exact Scheme.New_registered s g1 _ _
  · show (Scheme.AddToGroupVersion (Scheme.AddKnownTypeWithName _ g2 _) _).New g1 = _
    rw [Scheme.New_other _ g2 g1 _ _ hne.symm]
    exact Scheme.New_registered s g1 _ _
  · exact Scheme.New_registered _ g2 _ _

/-- The kinds `Foo` of versions `v1` and `v2`, on the empty scheme. -/
theorem registerGVK_versions_independent_witness :
    ∃ s1 s2 : Scheme, registerGVK specSchemeOps emptyScheme fooGVK = Except.ok s1
      ∧ s1.New fooGVK = Except.ok RuntimeType.Unstructured
      ∧ s1.New { fooGVK with Version := "v2" } =
          Except.error (Error.notRegisteredErr { fooGVK with Version := "v2" })
      ∧ IsNotRegisteredError (errOf (s1.New { fooGVK with Version := "v2" })) = true
      ∧ registerGVK specSchemeOps s1 { fooGVK with Version := "v2" } = Except.ok s2
      ∧ s2.New fooGVK = Except.ok RuntimeType.Unstructured
      ∧ s2.New { fooGVK with Version := "v2" } = Except.ok RuntimeType.Unstructured :=
  registerGVK_versions_independent emptyScheme fooGVK { fooGVK with Version := "v2" }
    rfl rfl (by decide) (by decide) (by decide)

/-! ## Fatal exits -/

/-- C6: `Add` exits at the registration step (the process exits and `controller.New`
was never called) if and only if resolving the kind in the scheme fails with an error
other than not-registered; and then the manager, its scheme included, is left as it
was, no controller is created, no watch is installed, and the run is the info log,
the error log and `os.Exit(1)`. -/
theorem Add_exits_at_registration {S K C : Type} (d : Deps S K C) (mgr : Manager S K)
    (options : Options) :
    (((Add d mgr options).ret = none ∧ controllerNewCalls (Add d mgr options).trace = []) ↔
      ∃ err, d.scheme.New mgr.scheme options.GVK = Except.error err
        ∧ IsNotRegisteredError (some err) = false)
    ∧ (∀ err, d.scheme.New mgr.scheme options.GVK = Except.error err →
        IsNotRegisteredError (some err) = false →
        (Add d mgr options).ret = none
        ∧ (Add d mgr options).mgr = mgr
        ∧ (Add d mgr options).mgr.scheme = mgr.scheme
        ∧ controllerNewCalls (Add d mgr options).trace = []
        ∧ watchCalls (Add d mgr options).trace = []
        ∧ (Add d mgr options).trace =
            [Call.logInfo "Watching resource"
              [("Options.Group", options.GVK.Group), ("Options.Version", options.GVK.Version),
               ("Options.Kind", options.GVK.Kind)],
             Call.logError err "", Call.osExit 1]) := by
  have hfatal : ∀ err, d.scheme.New mgr.scheme options.GVK = Except.error err →
      IsNotRegisteredError (some err) = false →
      (Add d mgr options).ret = none
      ∧ (Add d mgr options).mgr = mgr
      ∧ (Add d mgr options).mgr.scheme = mgr.scheme
      ∧ controllerNewCalls (Add d mgr options).trace = []
      ∧ watchCalls (Add d mgr options).trace = []
      ∧ (Add d mgr options).trace =
          [Call.logInfo "Watching resource"
            [("Options.Group", options.GVK.Group), ("Options.Version", options.GVK.Version),
             ("Options.Kind", options.GVK.Kind)],
           Call.logError err "", Call.osExit 1] := by
    intro err hN hn
    have hreg := registerGVK_fatal d.scheme mgr.scheme options.GVK err hN hn
    have hA : Add d mgr options = fatal mgr
        [Call.logInfo "Watching resource"
          [("Options.Group", options.GVK.Group), ("Options.Version", options.GVK.Version),
           ("Options.Kind", options.GVK.Kind)]] err "" := by
      simp [Add, Manager.GetScheme, hreg]
    rw [hA]
    simp [fatal, controllerNewCalls, watchCalls]
  refine ⟨⟨?_, ?_⟩, hfatal⟩
  · rintro ⟨_, hc⟩
    rw [Add_controllerNewCalls] at hc
    cases hr : registerGVK d.scheme mgr.scheme options.GVK with
    | error e => exact ⟨e, registerGVK_error_inv _ _ _ e hr⟩
    | ok s1 => simp [hr] at hc
  · rintro ⟨err, hN, hn⟩
    exact ⟨(hfatal err hN hn).1, (hfatal err hN hn).2.2.2.1⟩

/-- On the broken scheme the run on the kind `Foo` exits at the registration step
and leaves the manager as it was. -/
theorem Add_exits_at_registration_witness :
    brokenDeps.scheme.New exampleManager.scheme fooOptions.GVK =
        Except.error (Error.other "scheme is corrupt")
    ∧ (Add brokenDeps exampleManager fooOptions).ret = none
    ∧ (Add brokenDeps exampleManager fooOptions).mgr = exampleManager
    ∧ controllerNewCalls (Add brokenDeps exampleManager fooOptions).trace = []
    ∧ watchCalls (Add brokenDeps exampleManager fooOptions).trace = [] :=
  ⟨rfl,
    ((Add_exits_at_registration brokenDeps exampleManager fooOptions).2
      (Error.other "scheme is corrupt") rfl rfl).1,
    ((Add_exits_at_registration brokenDeps exampleManager fooOptions).2
      (Error.other "scheme is corrupt") rfl rfl).2.1,
    ((Add_exits_at_registration brokenDeps exampleManager fooOptions).2
      (Error.other "scheme is corrupt") rfl rfl).2.2.2.1,
    ((Add_exits_at_registration brokenDeps exampleManager fooOptions).2
      (Error.other "scheme is corrupt") rfl rfl).2.2.2.2.1⟩

/-- C7: for every options value whose selector makes the construction of the
resource-filter predicate fail, `Add` exits: no controller handle is returned, no
watch is installed, the last call is `os.Exit(1)`, and the scheme is the one the
registration step of the same run built (the registered one when the kind was not
registered), not the initial one restored.  When the two steps before succeed, the
run is the info log, the `controller.New` call, the error log and the exit. -/
theorem Add_invalid_selector {S K C : Type} (d : Deps S K C) (mgr : Manager S K)
    (options : Options) (e : Error)
    (h : NewResourceFilterPredicate d.LabelSelectorAsSelector options.Selector =
      Except.error e) :
    (Add d mgr options).ret = none
    ∧ watchCalls (Add d mgr options).trace = []
    ∧ (Add d mgr options).trace.getLast? = some (Call.osExit 1)
    ∧ (Add d mgr options).mgr.scheme =
        (match registerGVK d.scheme mgr.scheme options.GVK with
          | Except.error _ => mgr.scheme
          | Except.ok s1 => s1)
    ∧ (IsNotRegisteredError (errOf (d.scheme.New mgr.scheme options.GVK)) = true →
        (Add d mgr options).mgr.scheme =
          d.scheme.AddToGroupVersion
            (d.scheme.AddKnownTypeWithName mgr.scheme options.GVK RuntimeType.Unstructured)
            { Group := options.GVK.Group, Version := options.GVK.Version })
    ∧ (∀ s1 c k, registerGVK d.scheme mgr.scheme options.GVK = Except.ok s1 →
        d.controllerNew (controllerName d.unicodeToLower options.GVK.Kind)
          { mgr with scheme := s1 }
          { Reconciler := newReconciler mgr options
            MaxConcurrentReconciles := options.MaxConcurrentReconciles } = Except.ok (c, k) →
        (Add d mgr options).trace =
          [Call.logInfo "Watching resource"
            [("Options.Group", options.GVK.Group), ("Options.Version", options.GVK.Version),
             ("Options.Kind", options.GVK.Kind)],
           Call.controllerNew (controllerName d.unicodeToLower options.GVK.Kind)
            { Reconciler := newReconciler mgr options
              MaxConcurrentReconciles := options.MaxConcurrentReconciles },
           Call.logError e "Error creating resource filter predicate", Call.osExit 1]) := by
  have hb : buildPredicates d.LabelSelectorAsSelector options.Selector = Except.error e := by
    simp [buildPredicates, h]
  refine ⟨?_, ?_, ?_, Add_scheme d mgr options, ?_, ?_⟩
  · unfold Add
    simp only [Manager.GetScheme, hb]
    split
    · rfl
    · split <;> rfl
  · rw [Add_watchCalls, hb]
    split
    · rfl
    · split <;> rfl
  · unfold Add
    simp only [Manager.GetScheme, hb]
    split
    · simp [fatal]
    · split <;> simp [fatal]
  · intro hn
    rw [Add_scheme, registerGVK_notRegistered d.scheme mgr.scheme options.GVK hn]
  · intro s1 c k hr hc
    unfold Add
    simp [Manager.GetScheme, hr, hc, hb, fatal]

/-- The run on the kind `Foo` with a selector of unknown operator exits, and the
scheme it leaves resolves `Foo`, which the initial scheme did not. -/
theorem Add_invalid_selector_witness :
    NewResourceFilterPredicate exampleDeps.LabelSelectorAsSelector badSelector =
        Except.error (Error.other "not a valid label selector operator")
    ∧ IsNotRegisteredError (errOf (exampleManager.scheme.New fooGVK)) = true
    ∧ (Add exampleDeps exampleManager { fooOptions with Selector := badSelector }).ret = none
    ∧ watchCalls
        (Add exampleDeps exampleManager { fooOptions with Selector := badSelector }).trace = []
    ∧ (Add exampleDeps exampleManager
        { fooOptions with Selector := badSelector }).mgr.scheme.New fooGVK =
          Except.ok RuntimeType.Unstructured :=
  ⟨rfl, by decide,
    (Add_invalid_selector exampleDeps exampleManager { fooOptions with Selector := badSelector }
      (Error.other "not a valid label selector operator") rfl).1,
    (Add_invalid_selector exampleDeps exampleManager { fooOptions with Selector := badSelector }
      (Error.other "not a valid label selector operator") rfl).2.1,
    rfl⟩

/-! ## The predicate chain -/

/-- C8: for every options value whose selector compiles, `Add` builds the chain of
exactly two predicates, `Or(GenerationChangedPredicate, NoGenerationPredicate)` and
then the resource filter of the compiled selector; it is the chain of every `Watch`
call of the run, and of the one `Watch` call made once registration and controller
creation succeed.  The chain admits an event exactly when both predicates admit it,
so an event whose labels do not match the selector is rejected, whatever its
generations are. -/
theorem Add_predicateChain {S K C : Type} (d : Deps S K C) (mgr : Manager S K)
    (options : Options) (m : LabelSet → Bool)
    (h : d.LabelSelectorAsSelector options.Selector = Except.ok m) :
    buildPredicates d.LabelSelectorAsSelector options.Selector =
        Except.ok
          [Predicate.Or Predicate.GenerationChangedPredicate Predicate.NoGenerationPredicate,
           Predicate.ResourceFilterPredicate m]
    ∧ (∀ w ∈ watchCalls (Add d mgr options).trace,
        w.2.2.2 =
          [Predicate.Or Predicate.GenerationChangedPredicate Predicate.NoGenerationPredicate,
           Predicate.ResourceFilterPredicate m])
    ∧ (∀ s1 c k, registerGVK d.scheme mgr.scheme options.GVK = Except.ok s1 →
        d.controllerNew (controllerName d.unicodeToLower options.GVK.Kind)
          { mgr with scheme := s1 }
          { Reconciler := newReconciler mgr options
            MaxConcurrentReconciles := options.MaxConcurrentReconciles } = Except.ok (c, k) →
        watchCalls (Add d mgr options).trace =
          [(c, Source.Kind { gvk := options.GVK }, Handler.InstrumentedEnqueueRequestForObject,
            [Predicate.Or Predicate.GenerationChangedPredicate Predicate.NoGenerationPredicate,
             Predicate.ResourceFilterPredicate m])])
    ∧ (∀ ev : Event,
        chainAdmits
          [Predicate.Or Predicate.GenerationChangedPredicate Predicate.NoGenerationPredicate,
           Predicate.ResourceFilterPredicate m] ev =
        ((Predicate.Or Predicate.GenerationChangedPredicate
            Predicate.NoGenerationPredicate).admits ev
          && (Predicate.ResourceFilterPredicate m).admits ev))
    ∧ (∀ ev : Event, m ev.labels = false →
        chainAdmits
          [Predicate.Or Predicate.GenerationChangedPredicate Predicate.NoGenerationPredicate,
           Predicate.ResourceFilterPredicate m] ev = false) := by
  have hb : buildPredicates d.LabelSelectorAsSelector options.Selector =
      Except.ok
        [Predicate.Or Predicate.GenerationChangedPredicate Predicate.NoGenerationPredicate,
         Predicate.ResourceFilterPredicate m] := by
    simp [buildPredicates, NewResourceFilterPredicate, h]
  refine ⟨hb, ?_, ?_, ?_, ?_⟩
  · intro w hw
    rw [Add_watchCalls, hb] at hw
    cases hr : registerGVK d.scheme mgr.scheme options.GVK with
    | error e => simp [hr] at hw
    | ok s1 =>
      simp only [hr] at hw
      split at hw
      · simp at hw
      · simp at hw
        subst hw
        rfl
  · intro s1 c k hr hc
    rw [Add_watchCalls, hb, hr]
    simp only [hc]
  · intro ev
    simp only [chainAdmits]
    cases (Predicate.Or Predicate.GenerationChangedPredicate
      Predicate.NoGenerationPredicate).admits ev <;>
      cases (Predicate.ResourceFilterPredicate m).admits ev <;> rfl
  · intro ev hm
    simp only [chainAdmits]
    have hf : (Predicate.ResourceFilterPredicate m).admits ev = false := by
      cases ev <;> simpa [Predicate.admits] using hm
    rw [hf]
    cases (Predicate.Or Predicate.GenerationChangedPredicate
      Predicate.NoGenerationPredicate).admits ev <;> rfl

/-- The run on the kind `Foo` with the selector `app=web` installs one watch, and its
chain rejects an update whose generation changed and whose labels do not match. -/
theorem Add_predicateChain_witness :
    exampleDeps.LabelSelectorAsSelector webSelector = Except.ok webMatches
    ∧ (watchCalls
        (Add exampleDeps exampleManager { fooOptions with Selector := webSelector }).trace).length
        = 1
    ∧ chainAdmits
        [Predicate.Or Predicate.GenerationChangedPredicate Predicate.NoGenerationPredicate,
         Predicate.ResourceFilterPredicate webMatches]
        (Event.update { labels := [("app", "db")], generation := some 1 }
          { labels := [("app", "db")], generation := some 2 }) = false :=
  ⟨rfl, by decide,
    (Add_predicateChain exampleDeps exampleManager { fooOptions with Selector := webSelector }
      webMatches rfl).2.2.2.2 _ (by decide)⟩

/-- C9: the first predicate of the chain `Add` builds is
`Or(GenerationChangedPredicate, NoGenerationPredicate)`; for every update event it
rejects the event when the kind exposes a generation counter and the old and the new
generation are equal, and admits the event when the kind exposes no generation
counter. -/
theorem firstPredicate_update (asSelector : LabelSelector → Except Error (LabelSet → Bool))
    (selector : LabelSelector) (objectOld objectNew : Object) :
    (∀ ps, buildPredicates asSelector selector = Except.ok ps →
        ps.head? = some (Predicate.Or Predicate.GenerationChangedPredicate
          Predicate.NoGenerationPredicate))
    ∧ (∀ g : Int, objectOld.generation = some g → objectNew.generation = some g →
        (Predicate.Or Predicate.GenerationChangedPredicate
          Predicate.NoGenerationPredicate).admits (Event.update objectOld objectNew) = false)
    ∧ (objectOld.generation = none → objectNew.generation = none →
        (Predicate.Or Predicate.GenerationChangedPredicate
          Predicate.NoGenerationPredicate).admits (Event.update objectOld objectNew) = true) := by
  refine ⟨?_, ?_, ?_⟩
  · intro ps hps
    unfold buildPredicates at hps
    cases hf : NewResourceFilterPredicate asSelector selector with
    | error e => simp [hf] at hps
    | ok f =>
      simp [hf] at hps
      subst hps
      rfl
  · intro g ho hn
    simp [Predicate.admits, ho, hn]
  · intro ho hn
    simp [Predicate.admits, ho, hn]

/-- An update at generation 3 on both sides is rejected, and an update of a kind
without generation counter is admitted, by the first predicate built for the selector
`app=web`. -/
theorem firstPredicate_update_witness :
    (∃ ps, buildPredicates exampleAsSelector webSelector = Except.ok ps)
    ∧ (Predicate.Or Predicate.GenerationChangedPredicate
        Predicate.NoGenerationPredicate).admits
          (Event.update { labels := [], generation := some 3 }
            { labels := [("app", "web")], generation := some 3 }) = false
    ∧ (Predicate.Or Predicate.GenerationChangedPredicate
        Predicate.NoGenerationPredicate).admits
          (Event.update { labels := [], generation := none }
            { labels := [("app", "web")], generation := none }) = true :=
  ⟨⟨_, rfl⟩,
    (firstPredicate_update exampleAsSelector webSelector { labels := [], generation := some 3 }
      { labels := [("app", "web")], generation := some 3 }).2.1 3 rfl rfl,
    (firstPredicate_update exampleAsSelector webSelector { labels := [], generation := none }
      { labels := [("app", "web")], generation := none }).2.2 rfl rfl⟩

/-! ## The watch flags -/

/-- C10: `Add` does not depend on the flags `WatchDependentResources` and
`WatchClusterScopedResources`: for every two options values that differ at most in
these two flags and every manager, the two runs of `Add` have the same outcome (the
same manager with the same scheme, the same calls with the same controller name,
reconciler, concurrency limit, source, handler and predicate chain, the same returned
handle), and they build the same reconciler and the same predicate chain. -/
theorem Add_ignores_watch_flags {S K C : Type} (d : Deps S K C) (mgr : Manager S K)
    (o1 o2 : Options)
    (h : { o1 with WatchDependentResources := o2.WatchDependentResources,
                    WatchClusterScopedResources := o2.WatchClusterScopedResources } = o2) :
    Add d mgr o1 = Add d mgr o2
    ∧ newReconciler mgr o1 = newReconciler mgr o2
    ∧ registerGVK d.scheme mgr.scheme o1.GVK = registerGVK d.scheme mgr.scheme o2.GVK
    ∧ controllerNewCalls (Add d mgr o1).trace = controllerNewCalls (Add d mgr o2).trace
    ∧ watchCalls (Add d mgr o1).trace = watchCalls (Add d mgr o2).trace
    ∧ buildPredicates d.LabelSelectorAsSelector o1.Selector =
        buildPredicates d.LabelSelectorAsSelector o2.Selector := by
  have hA : Add d mgr o1 = Add d mgr o2 := by
    rw [← h]
    rfl
  refine ⟨hA, ?_, ?_, ?_, ?_, ?_⟩
  · rw [← h]; rfl
  · rw [← h]
  · rw [hA]
  · rw [hA]
  · rw [← h]

/-- The options for `Foo` with both flags flipped give the same run. -/
theorem Add_ignores_watch_flags_witness :
    fooOptions ≠ { fooOptions with WatchDependentResources := false,
                                   WatchClusterScopedResources := true }
    ∧ Add exampleDeps exampleManager fooOptions =
        Add exampleDeps exampleManager
          { fooOptions with WatchDependentResources := false,
                            WatchClusterScopedResources := true } :=
  ⟨by decide,
    (Add_ignores_watch_flags exampleDeps exampleManager fooOptions
      { fooOptions with WatchDependentResources := false,
                        WatchClusterScopedResources := true } rfl).1⟩

end AnsibleController
